import Mathlib

set_option maxRecDepth 100000

/-!
Verification of the GPTIntergration repository's natural-language
specification against a shallow embedding of its JavaScript sources.

Bytes are modelled as `Nat` values below 256 and byte strings as
`List Nat`. Machine words in the hash function are `Nat` values reduced
modulo `2 ^ 32` wherever the 32-bit implementation overflows.

The embedding covers:
 * `crypto.createHmac('sha256', key).update(msg).digest('hex')` as
   an executable SHA-256 / HMAC implementation (the Node builtin the
   webhook verifiers call);
 * `verifyWebhookSignature` (unnamed part_004, lines 140-150);
 * `verifyGHLWebhook` (middleware/security.js, lines 16-58) together
   with `crypto.timingSafeEqual`, which throws on inputs of different
   byte length;
 * the webhook route of part_004 (lines 262-297);
 * the in-memory inventory table and its two handlers
   (server-native.js, lines 429-474 and 822-856);
 * the GoHighLevel contact handlers (server-native.js, lines 571-664);
 * response-body resolution of `makeHttpsRequest`
   (server-native.js, lines 17-46) and `GHLClient.makeRequest`
   (part_001, lines 28-61);
 * `authenticateAPIKey`, the `/metrics` route of server-secure.js and
   the `CircuitBreakerManager` method table (part_003, lines 71-123);
 * the route dispatch chains of server-native.js and server-secure.js.
-/

/-- ASCII byte list of a string literal (all literals used are ASCII,
so code points equal UTF-8 bytes). -/
def strBytes (s : String) : List Nat :=
  s.toList.map Char.toNat

/-- JavaScript truthiness of a string value: the empty string is falsy. -/
def jsTruthyStr (s : String) : Bool :=
  !(s == "")

/-- JavaScript truthiness of a possibly-absent string value:
`undefined` and the empty string are falsy. -/
def jsTruthyOpt (o : Option String) : Bool :=
  match o with
  | none => false
  | some s => jsTruthyStr s

/-- JavaScript truthiness of a possibly-absent byte string (used for
header values and secrets carried as bytes). -/
def jsTruthyBytes (o : Option (List Nat)) : Bool :=
  match o with
  | none => false
  | some s => !(s == [])

/-- The 32-bit modulus. -/
def w32 : Nat := 4294967296

/-- Right rotation of a 32-bit word. -/
def rotr32 (n x : Nat) : Nat :=
  ((x >>> n) ||| (x <<< (32 - n))) % w32

/-- SHA-256 round-constant table. -/
def shaK : List Nat :=
  [1116352408, 1899447441, 3049323471, 3921009573,
   961987163, 1508970993, 2453635748, 2870763221,
   3624381080, 310598401, 607225278, 1426881987,
   1925078388, 2162078206, 2614888103, 3248222580,
   3835390401, 4022224774, 264347078, 604807628,
   770255983, 1249150122, 1555081692, 1996064986,
   2554220882, 2821834349, 2952996808, 3210313671,
   3336571891, 3584528711, 113926993, 338241895,
   666307205, 773529912, 1294757372, 1396182291,
   1695183700, 1986661051, 2177026350, 2456956037,
   2730485921, 2820302411, 3259730800, 3345764771,
   3516065817, 3600352804, 4094571909, 275423344,
   430227734, 506948616, 659060556, 883997877,
   958139571, 1322822218, 1537002063, 1747873779,
   1955562222, 2024104815, 2227730452, 2361852424,
   2428436474, 2756734187, 3204031479, 3329325298]

/-- The eight SHA-256 working registers. -/
structure Sha256State where
  ra : Nat
  rb : Nat
  rc : Nat
  rd : Nat
  re : Nat
  rf : Nat
  rg : Nat
  rh : Nat
deriving DecidableEq

/-- SHA-256 initial hash value. -/
def shaInit : Sha256State :=
  ⟨1779033703, 3144134277, 1013904242, 2773480762,
   1359893119, 2600822924, 528734635, 1541459225⟩

/-- Choice function of the round. -/
def shaCh (x y z : Nat) : Nat :=
  (x &&& y) ^^^ ((x ^^^ (w32 - 1)) &&& z)

/-- Majority function of the round. -/
def shaMaj (x y z : Nat) : Nat :=
  (x &&& y) ^^^ (x &&& z) ^^^ (y &&& z)

/-- Big sigma-0. -/
def bsig0 (x : Nat) : Nat := rotr32 2 x ^^^ rotr32 13 x ^^^ rotr32 22 x

/-- Big sigma-1. -/
def bsig1 (x : Nat) : Nat := rotr32 6 x ^^^ rotr32 11 x ^^^ rotr32 25 x

/-- Small sigma-0 of the message schedule. -/
def ssig0 (x : Nat) : Nat := rotr32 7 x ^^^ rotr32 18 x ^^^ (x >>> 3)

/-- Small sigma-1 of the message schedule. -/
def ssig1 (x : Nat) : Nat := rotr32 17 x ^^^ rotr32 19 x ^^^ (x >>> 10)

/-- Group a byte list into big-endian 32-bit words, four bytes at a time. -/
def bytesToWords : List Nat → List Nat
  | b0 :: b1 :: b2 :: b3 :: rest =>
      (b0 * 16777216 + b1 * 65536 + b2 * 256 + b3) :: bytesToWords rest
  | _ => []

/-- Extend the 16 block words to the 64-word message schedule by the
given number of extension steps. -/
def shaSchedule (ws : List Nat) : Nat → List Nat
  | 0 => ws
  | n + 1 =>
      let len := ws.length
      let next :=
        (ssig1 (ws.getD (len - 2) 0) + ws.getD (len - 7) 0 +
         ssig0 (ws.getD (len - 15) 0) + ws.getD (len - 16) 0) % w32
      shaSchedule (ws ++ [next]) n

/-- One SHA-256 round, consuming a schedule word and a round constant. -/
def shaStep (st : Sha256State) (wk : Nat × Nat) : Sha256State :=
  let t1 := (st.rh + bsig1 st.re + shaCh st.re st.rf st.rg + wk.2 + wk.1) % w32
  let t2 := (bsig0 st.ra + shaMaj st.ra st.rb st.rc) % w32
  ⟨(t1 + t2) % w32, st.ra, st.rb, st.rc,
   (st.rd + t1) % w32, st.re, st.rf, st.rg⟩

/-- Compress one 64-byte block into the running state. -/
def shaCompress (st : Sha256State) (block : List Nat) : Sha256State :=
  let ws := shaSchedule (bytesToWords block) 48
  let fin := (ws.zip shaK).foldl shaStep st
  ⟨(st.ra + fin.ra) % w32, (st.rb + fin.rb) % w32,
   (st.rc + fin.rc) % w32, (st.rd + fin.rd) % w32,
   (st.re + fin.re) % w32, (st.rf + fin.rf) % w32,
   (st.rg + fin.rg) % w32, (st.rh + fin.rh) % w32⟩

/-- Eight big-endian length bytes of a bit count. -/
def lenBytes64 (n : Nat) : List Nat :=
  [(n >>> 56) % 256, (n >>> 48) % 256, (n >>> 40) % 256, (n >>> 32) % 256,
   (n >>> 24) % 256, (n >>> 16) % 256, (n >>> 8) % 256, n % 256]

/-- SHA-256 padding: a 128 byte, zeros to 56 mod 64, then the
bit length as eight big-endian bytes. -/
def shaPad (msg : List Nat) : List Nat :=
  let len := msg.length
  let zeros := (64 - ((len + 9) % 64)) % 64
  msg ++ [128] ++ List.replicate zeros 0 ++ lenBytes64 (8 * len)

/-- Compress the given number of leading 64-byte blocks. -/
def shaBlocks : Nat → Sha256State → List Nat → Sha256State
  | 0, st, _ => st
  | n + 1, st, bytes => shaBlocks n (shaCompress st (bytes.take 64)) (bytes.drop 64)

/-- Serialize one 32-bit word as four big-endian bytes. -/
def wordBytes (x : Nat) : List Nat :=
  [(x >>> 24) % 256, (x >>> 16) % 256, (x >>> 8) % 256, x % 256]

/-- SHA-256 of a byte string, as its 32 digest bytes. -/
def sha256 (msg : List Nat) : List Nat :=
  let padded := shaPad msg
  let st := shaBlocks (padded.length / 64) shaInit padded
  wordBytes st.ra ++ wordBytes st.rb ++ wordBytes st.rc ++ wordBytes st.rd ++
  wordBytes st.re ++ wordBytes st.rf ++ wordBytes st.rg ++ wordBytes st.rh

/-- HMAC-SHA256 with block size 64, as its 32 digest bytes. -/
def hmacSha256 (key msg : List Nat) : List Nat :=
  let k0 := if 64 < key.length then sha256 key else key
  let kpad := k0 ++ List.replicate (64 - k0.length) 0
  let ipadded := kpad.map (fun b => b ^^^ 54)
  let opadded := kpad.map (fun b => b ^^^ 92)
  sha256 (opadded ++ sha256 (ipadded ++ msg))

/-- ASCII code of the lowercase hex digit of a value below 16. -/
def hexDigitCode (n : Nat) : Nat :=
  if n < 10 then 48 + n else 87 + n

/-- Lowercase hex encoding of a byte string, as ASCII codes:
this is what Node's `.digest('hex')` emits. -/
def hexBytes : List Nat → List Nat
  | [] => []
  | b :: rest => hexDigitCode (b / 16) :: hexDigitCode (b % 16) :: hexBytes rest

/-- The hex-encoded HMAC-SHA256 digest, as the ASCII bytes of
`crypto.createHmac('sha256', key).update(msg).digest('hex')`. -/
def hmacHex (key msg : List Nat) : List Nat :=
  hexBytes (hmacSha256 key msg)

theorem sha256_length (msg : List Nat) : (sha256 msg).length = 32 := by
  simp [sha256, wordBytes]

theorem hexBytes_length (bs : List Nat) : (hexBytes bs).length = 2 * bs.length := by
  induction bs with
  | nil => simp [hexBytes]
  | cons b rest ih => simp [hexBytes, ih]; omega

theorem hmacSha256_length (key msg : List Nat) : (hmacSha256 key msg).length = 32 := by
  simp [hmacSha256, sha256_length]

theorem hmacHex_length (key msg : List Nat) : (hmacHex key msg).length = 64 := by
  simp [hmacHex, hexBytes_length, hmacSha256_length]

/-- Known-answer check: SHA-256 of the empty string. -/
theorem sha256_empty_vector :
    hexBytes (sha256 []) =
      strBytes "e3b0c44298fc1c149afbf4c8996fb92427ae41e4649b934ca495991b7852b855" := by
  decide

/-- Known-answer check: SHA-256 of the ASCII string abc. -/
theorem sha256_abc_vector :
    hexBytes (sha256 (strBytes "abc")) =
      strBytes "ba7816bf8f01cfea414140de5dae2223b00361a396177a9cb410ff61f20015ad" := by
  decide

/-- Known-answer check: the first RFC 4231 HMAC-SHA256 test case. -/
theorem hmac_rfc4231_case1 :
    hmacHex (List.replicate 20 11) (strBytes "Hi There") =
      strBytes "b0344c61d8db38535ca8afceaf0bf12b881dc200c9833da726e9376c2e32cff7" := by
  decide

/-! ## JSON values

A small JSON value type and an executable parser modelling the
behaviour of `JSON.parse` on the inputs the servers handle: objects,
arrays, double-quoted strings with the common single-character
escapes, integer numbers, and the three literals. Fractional and
exponent number forms and unicode escapes are outside the model;
every use below either fixes a concrete input or assumes the parse
outcome as a hypothesis. -/

/-- A JSON value. -/
inductive JVal where
  | jnull : JVal
  | jbool : Bool → JVal
  | jnum : Int → JVal
  | jstr : String → JVal
  | jarr : List JVal → JVal
  | jobj : List (String × JVal) → JVal

/-- Field lookup on a JSON object; `none` on other values or
missing keys. -/
def lookupField (j : JVal) (k : String) : Option JVal :=
  match j with
  | .jobj fs => (fs.find? (fun p => p.1 == k)).map (fun p => p.2)
  | _ => none

/-- Whitespace test for the parser. -/
def isJsonWs (c : Char) : Bool :=
  c == ' ' || c == '\n' || c == '\t' || c == '\r'

/-- Drop leading JSON whitespace. -/
def skipWs (cs : List Char) : List Char :=
  cs.dropWhile isJsonWs

/-- Decimal digit test. -/
def isDigitCh (c : Char) : Bool :=
  48 ≤ c.toNat && c.toNat ≤ 57

/-- Accumulate leading decimal digits. -/
def takeDigits : List Char → Nat → (Nat × List Char)
  | c :: rest, acc =>
      if isDigitCh c then takeDigits rest (acc * 10 + (c.toNat - 48))
      else (acc, c :: rest)
  | [], acc => (acc, [])

/-- Parse a double-quoted string body (after the opening quote), with
single-character escapes. -/
def takeStringBody : List Char → List Char → Option (String × List Char)
  | '"' :: rest, acc => some (String.mk acc.reverse, rest)
  | '\\' :: e :: rest, acc =>
      match e with
      | '"' => takeStringBody rest ('"' :: acc)
      | '\\' => takeStringBody rest ('\\' :: acc)
      | '/' => takeStringBody rest ('/' :: acc)
      | 'n' => takeStringBody rest ('\n' :: acc)
      | 't' => takeStringBody rest ('\t' :: acc)
      | 'r' => takeStringBody rest ('\r' :: acc)
      | _ => none
  | c :: rest, acc => takeStringBody rest (c :: acc)
  | [], _ => none

mutual

/-- Parse one JSON value, with fuel bounding the nesting depth. -/
def parseJVal : Nat → List Char → Option (JVal × List Char)
  | 0, _ => none
  | fuel + 1, cs =>
      match skipWs cs with
      | 'n' :: 'u' :: 'l' :: 'l' :: rest => some (.jnull, rest)
      | 't' :: 'r' :: 'u' :: 'e' :: rest => some (.jbool true, rest)
      | 'f' :: 'a' :: 'l' :: 's' :: 'e' :: rest => some (.jbool false, rest)
      | '"' :: rest =>
          match takeStringBody rest [] with
          | some (s, rest2) => some (.jstr s, rest2)
          | none => none
      | '[' :: rest =>
          (match skipWs rest with
           | ']' :: rest2 => some (.jarr [], rest2)
           | _ =>
             match parseJItems fuel rest with
             | some (xs, rest2) => some (.jarr xs, rest2)
             | none => none)
      | '{' :: rest =>
          (match skipWs rest with
           | '}' :: rest2 => some (.jobj [], rest2)
           | _ =>
             match parseJFields fuel rest with
             | some (fs, rest2) => some (.jobj fs, rest2)
             | none => none)
      | '-' :: c :: rest =>
          if isDigitCh c then
            let (n, rest2) := takeDigits (c :: rest) 0
            some (.jnum (-(n : Int)), rest2)
          else none
      | c :: rest =>
          if isDigitCh c then
            let (n, rest2) := takeDigits (c :: rest) 0
            some (.jnum (n : Int), rest2)
          else none
      | [] => none

/-- Parse comma-separated array elements up to the closing bracket. -/
def parseJItems : Nat → List Char → Option (List JVal × List Char)
  | 0, _ => none
  | fuel + 1, cs =>
      match parseJVal fuel cs with
      | some (v, rest) =>
          (match skipWs rest with
           | ',' :: rest2 =>
               match parseJItems fuel rest2 with
               | some (xs, rest3) => some (v :: xs, rest3)
               | none => none
           | ']' :: rest2 => some ([v], rest2)
           | _ => none)
      | none => none

/-- Parse comma-separated object members up to the closing brace. -/
def parseJFields : Nat → List Char → Option (List (String × JVal) × List Char)
  | 0, _ => none
  | fuel + 1, cs =>
      match skipWs cs with
      | '"' :: rest =>
          (match takeStringBody rest [] with
           | some (k, rest2) =>
               (match skipWs rest2 with
                | ':' :: rest3 =>
                    (match parseJVal fuel rest3 with
                     | some (v, rest4) =>
                         (match skipWs rest4 with
                          | ',' :: rest5 =>
                              (match parseJFields fuel rest5 with
                               | some (fs, rest6) => some ((k, v) :: fs, rest6)
                               | none => none)
                          | _ :: rest5 =>
                              if (skipWs rest4).head? == some '}' then
                                some ([(k, v)], rest5)
                              else none
                          | [] => none)
                     | none => none)
                | _ => none)
           | none => none)
      | _ => none

end

/-- Model of `JSON.parse`: parse one value and require only trailing
whitespace after it. -/
def jsonParse (s : String) : Option JVal :=
  match parseJVal (s.length + 1) s.toList with
  | some (v, rest) => if skipWs rest == [] then some v else none
  | none => none

/-! ## Webhook signature verification

`verifyWebhookSignature` from part_004 (lines 140-150): the module
resolves `WEBHOOK_SECRET` as `process.env.WEBHOOK_SECRET ||
'your-webhook-secret'`; the function returns `true` without any
comparison when the resolved secret is falsy or equals the placeholder,
and otherwise compares the hex HMAC digest with the signature. -/

/-- Byte form of the placeholder secret `'your-webhook-secret'`. -/
def placeholderSecret : List Nat :=
  strBytes "your-webhook-secret"

/-- Embedding of `verifyWebhookSignature(payload, signature)` of
part_004, with the resolved `WEBHOOK_SECRET` passed explicitly. -/
def verifyWebhookSignature (secret payload signature : List Nat) : Bool :=
  if secret == [] || secret == placeholderSecret then true
  else hmacHex secret payload == signature

/-- Outcome of an Express middleware: either respond immediately with
a status and error message, or call `next()`. -/
inductive MwOutcome where
  | respond : Nat → String → MwOutcome
  | passOn : MwOutcome
deriving DecidableEq

/-- Embedding of `crypto.timingSafeEqual(Buffer.from(a), Buffer.from(b))`:
it throws a `RangeError` when the buffers differ in byte length and
otherwise reports byte equality. -/
def timingSafeEqual (a b : List Nat) : Except String Bool :=
  if a.length ≠ b.length then .error "RangeError"
  else .ok (a == b)

/-- Embedding of `verifyGHLWebhook(req, res, next)` from
middleware/security.js (lines 16-58). `secret` is
`process.env.GHL_WEBHOOK_SECRET` (`none` when unset), `signature` the
`x-ghl-signature` / `x-hook-signature` header, and `body` the byte
form of `JSON.stringify(req.body)` over which the HMAC is computed.
The `catch` branch of the source maps a thrown comparison error to a
500 response. -/
def verifyGHLWebhook (secret : Option (List Nat)) (signature : Option (List Nat))
    (body : List Nat) : MwOutcome :=
  if !jsTruthyBytes secret then .respond 500 "Webhook verification not configured"
  else if !jsTruthyBytes signature then .respond 401 "Missing webhook signature"
  else
    let expected := hmacHex (secret.getD []) body
    match timingSafeEqual (signature.getD []) expected with
    | .error _ => .respond 500 "Webhook verification failed"
    | .ok false => .respond 401 "Invalid webhook signature"
    | .ok true => .passOn

/-- Verification decision of the `POST /api/webhooks/ghl` route of
part_004 (lines 270-277): the request is rejected with 401 only when a
signature header is present (truthy) and `verifyWebhookSignature`
returns false; otherwise the body is handed to webhook processing. -/
inductive RouteDecision where
  | reject401 : RouteDecision
  | accept : RouteDecision
deriving DecidableEq

/-- Embedding of the signature gate in part_004's webhook route:
`if (signature && !verifyWebhookSignature(body, signature))` rejects,
everything else proceeds to `JSON.parse` and `processWebhook`. -/
def ghlWebhookRouteDecision (secret : List Nat) (signature : Option (List Nat))
    (body : List Nat) : RouteDecision :=
  if jsTruthyBytes signature && !verifyWebhookSignature secret body (signature.getD []) then
    .reject401
  else .accept

/-! ## In-memory inventory (server-native.js, lines 429-474) -/

/-- One inventory record, with the fields of the source object. -/
structure InventoryItem where
  sku : String
  name : String
  category : String
  quantity : Nat
  unit : String
  reorder_point : Nat
  location : String
  stock_status : String
  needs_reorder : Bool
deriving DecidableEq

/-- Uppercase an ASCII string, the effect of `.toUpperCase()` on the
ASCII inputs the inventory handlers compare. -/
def asciiUpper (s : String) : String :=
  String.mk (s.toList.map (fun c =>
    if 97 ≤ c.toNat && c.toNat ≤ 122 then Char.ofNat (c.toNat - 32) else c))

/-- The `inventory` object literal as an association list from
property key to record, in insertion order. -/
def inventoryPairs : List (String × InventoryItem) :=
  [("FBS-001",
    ⟨"FBS-001", "Fetal Bovine Serum - US Origin", "FBS", 150,
     "bottles (500ml)", 50, "Cold Storage A1", "NORMAL", false⟩),
   ("FBS-002",
    ⟨"FBS-002", "Fetal Bovine Serum - USDA Approved", "FBS", 25,
     "bottles (500ml)", 30, "Cold Storage A2", "LOW", true⟩),
   ("MED-001",
    ⟨"MED-001", "DMEM Media", "MEDIA", 200,
     "bottles (1L)", 50, "Media Storage B1", "NORMAL", false⟩),
   ("PLS-001",
    ⟨"PLS-001", "Plastic Pipette Tips", "PLASTICS", 45,
     "boxes", 100, "Supply Cabinet C1", "LOW", true⟩)]

/-- Property access `inventory[k]` on the object literal. -/
def invLookup (k : String) : Option InventoryItem :=
  (inventoryPairs.find? (fun p => p.1 == k)).map (fun p => p.2)

/-- `Object.values(inventory)`, in insertion order. -/
def invValues : List InventoryItem :=
  inventoryPairs.map (fun p => p.2)

/-- Embedding of the `POST /api/inventory/check` body handler
(server-native.js, lines 826-841): destructure `sku` and `category`
from the parsed body and branch on JavaScript truthiness. -/
def inventoryCheck (sku category : Option String) : List InventoryItem :=
  if jsTruthyOpt sku then
    match invLookup (asciiUpper (sku.getD "")) with
    | some item => [item]
    | none => []
  else if jsTruthyOpt category then
    invValues.filter (fun i => i.category == asciiUpper (category.getD ""))
  else
    invValues

/-- Embedding of the `GET /api/inventory/low-stock` filter
(server-native.js, line 853). -/
def lowStockItems : List InventoryItem :=
  invValues.filter (fun i => i.needs_reorder || i.stock_status == "LOW")

/-! ## Upstream response resolution -/

/-- The resolution value of `makeHttpsRequest` (headers are carried
through unchanged by the source and omitted here). -/
structure HttpsResolution where
  status : Nat
  data : JVal

/-- Embedding of the `end` listener of `makeHttpsRequest`
(server-native.js, lines 24-31): an empty accumulated body resolves as
an empty object without parsing; otherwise a successful `JSON.parse`
resolves with the parsed value and a failing one resolves with the raw
text under `data`, in both cases together with the status code. -/
def makeHttpsRequestResolve (status : Nat) (text : String) : HttpsResolution :=
  if text == "" then ⟨status, .jobj []⟩
  else
    match jsonParse text with
    | some j => ⟨status, j⟩
    | none => ⟨status, .jstr text⟩

/-- Embedding of the `end` listener of `GHLClient.makeRequest`
(part_001, lines 48-54): a successful `JSON.parse` resolves with the
parsed value; a failing one resolves with an object carrying an
`error` marker and the raw text under `raw` — without the status code,
which this client never exposes. -/
def ghlClientResolve (text : String) : JVal :=
  match jsonParse text with
  | some j => j
  | none => .jobj [("error", .jstr "Invalid response"), ("raw", .jstr text)]

/-! ## GoHighLevel contact handlers (server-native.js, lines 571-664) -/

/-- Model of `parseInt(s)` restricted to the base-10 strings the
handlers receive: leading decimal digits give the number, no leading
digit gives `NaN` (`none`). Sign and whitespace prefixes are outside
the model. -/
def jsParseInt (s : String) : Option Nat :=
  match s.toList.takeWhile isDigitCh with
  | [] => none
  | ds => some (ds.foldl (fun acc c => acc * 10 + (c.toNat - 48)) 0)

/-- JavaScript `a || b` for a possibly-absent string: the fallback is
used when the value is absent or empty. -/
def jsOrStr (o : Option String) (dflt : String) : String :=
  match o with
  | some s => if s == "" then dflt else s
  | none => dflt

/-- The two limit values of the `GET /api/ghl/contacts` handler: the
limit placed into the upstream query (`Math.min(limit, 100)`, line
580) and the `limit` echoed in the response body (line 596). `none`
stands for `NaN`. -/
def getContactsLimits (limitParam : Option String) : Option Nat × Option Nat :=
  let limit := jsParseInt (jsOrStr limitParam "20")
  (limit.map (fun l => min l 100), limit)

/-- Result of an upstream `makeGHLRequest` call, as seen by a handler. -/
inductive UpResult where
  | success : JVal → UpResult
  | failure : JVal → UpResult

/-- Response of a handler paired with whether an upstream GoHighLevel
request was issued while producing it. -/
structure HandlerOutcome where
  status : Nat
  body : JVal
  upstreamAttempted : Bool

/-- Embedding of the `POST /api/ghl/contacts` body handler
(server-native.js, lines 617-661). `parsed` is the outcome of
`JSON.parse` on the request body (`none` when it throws, taken to the
catch branch); on a parsed body the handler rejects with 400 before
any upstream call when both `email` and `phone` are falsy, and
otherwise issues the upstream request and maps its result. -/
def postContactsHandler (parsed : Option (Option String × Option String))
    (up : UpResult) : HandlerOutcome :=
  match parsed with
  | none => ⟨400, .jobj [("success", .jbool false), ("error", .jstr "Unexpected token")], false⟩
  | some (email, phone) =>
      if !jsTruthyOpt email && !jsTruthyOpt phone then
        ⟨400, .jobj [("success", .jbool false),
                     ("error", .jstr "Either email or phone is required")], false⟩
      else
        match up with
        | .success d => ⟨200, .jobj [("success", .jbool true), ("data", d)], true⟩
        | .failure e => ⟨500, e, true⟩

/-! ## API-key authentication and the metrics route (server-secure.js) -/

/-- Outcome of `authenticateAPIKey`. -/
inductive AuthResult where
  | reject : Nat → String → AuthResult
  | allow : AuthResult
deriving DecidableEq

/-- Embedding of `authenticateAPIKey(req, res, next)`
(middleware/security.js, lines 63-84): the presented key comes from the
`x-api-key` header or the `apiKey` query parameter; the valid set is
`[INTERNAL_API_KEY, EXTERNAL_API_KEY].filter(Boolean)`, so unset and
empty configured keys are dropped. -/
def authenticateAPIKey (apiKey internalKey externalKey : Option String) : AuthResult :=
  if !jsTruthyOpt apiKey then .reject 401 "Missing API key"
  else
    let validKeys := ([internalKey, externalKey].filterMap id).filter jsTruthyStr
    if validKeys.contains (apiKey.getD "") then .allow
    else .reject 401 "Invalid API key"

/-- The method names defined on `CircuitBreakerManager`
(part_003, lines 71-116): `create`, `get` and `getStatus`. -/
def circuitBreakerManagerMethods : List String :=
  ["create", "get", "getStatus"]

/-- A method call on the manager singleton: calling a name the class
does not define throws a `TypeError`. -/
def callManagerMethod (name : String) : Except String JVal :=
  if circuitBreakerManagerMethods.contains name then .ok (.jobj [])
  else .error ("TypeError: circuitBreakerManager." ++ name ++ " is not a function")

/-- Embedding of `GET /metrics` on server-secure.js (lines 79-91)
composed with `authenticateAPIKey` and, for a thrown handler error,
the `errorHandler` of middleware/security.js (lines 297-317), which
responds with `err.status || 500`. The handler body calls
`circuitBreakerManager.getMetrics()`. -/
def metricsRoute (apiKey internalKey externalKey : Option String) : Nat × JVal :=
  match authenticateAPIKey apiKey internalKey externalKey with
  | .reject st msg => (st, .jobj [("error", .jstr msg)])
  | .allow =>
      match callManagerMethod "getMetrics" with
      | .ok metrics =>
          (200, .jobj [("circuitBreakers", metrics)])
      | .error msg =>
          (500, .jobj [("error", .jstr msg)])

/-! ## Route dispatch -/


/-- Prefix test on the underlying character lists, the effect of
`String.prototype.startsWith` on the route paths compared below. -/
def listPrefixEq : List Char → List Char → Bool
  | _, [] => true
  | [], _ :: _ => false
  | c :: cs, d :: ds => c == d && listPrefixEq cs ds

/-- Whether `p` is a prefix of `s`. -/
def strStartsWith (s p : String) : Bool :=
  listPrefixEq s.toList p.toList

/-- The HTTP methods the servers branch on. -/
inductive HMethod where
  | get : HMethod
  | post : HMethod
  | options : HMethod
  | other : HMethod
deriving DecidableEq, BEq

/-- What the top-level request handler does with a request: hand it to
a named route handler, or answer directly with a status and body. -/
inductive DispatchResult where
  | handled : String → DispatchResult
  | response : Nat → JVal → DispatchResult

/-- The 404 body of server-native.js (line 860). -/
def nativeNotFoundBody (u : String) : JVal :=
  .jobj [("error", .jstr "Not found"), ("path", .jstr u)]

/-- The endpoint list the native server returns inside the
`GET /health` body (lines 502-516) — and only there. -/
def nativeKnownEndpoints : List String :=
  ["/health",
   "/api/inventory/check",
   "/api/inventory/low-stock",
   "/api/ghl/contacts",
   "/api/ghl/opportunities",
   "/api/ghl/tasks",
   "/api/ghl/stats",
   "/api/test/mongodb",
   "/api/test/ghl",
   "/api/test/openai",
   "/api/test/anthropic",
   "/api/test/pinecone",
   "/api/test/woocommerce"]

/-- The `endpoints` field of the native health body. -/
def nativeHealthEndpointsField : JVal :=
  .jarr (nativeKnownEndpoints.map .jstr)

/-- Embedding of the server-native.js request dispatch chain
(lines 477-861), with each guard in source order; every request that
matches no guard falls through to the single 404 response. -/
def serverNativeHandle (m : HMethod) (u : String) : DispatchResult :=
  if m == .options then .handled "preflight"
  else if u == "/health" then .handled "health"
  else if strStartsWith u "/api/test/" && m == .get then .handled "testEndpoint"
  else if strStartsWith u "/api/ghl/contacts" && m == .get then .handled "ghlContactsGet"
  else if u == "/api/ghl/contacts" && m == .post then .handled "ghlContactsPost"
  else if strStartsWith u "/api/ghl/opportunities" && m == .get then .handled "ghlOpportunities"
  else if strStartsWith u "/api/ghl/tasks" && m == .get then .handled "ghlTasks"
  else if u == "/api/ghl/stats" && m == .get then .handled "ghlStats"
  else if u == "/api/inventory/check" && m == .post then .handled "inventoryCheck"
  else if u == "/api/inventory/low-stock" && m == .get then .handled "lowStock"
  else .response 404 (nativeNotFoundBody u)

/-- The 404 body of server-secure.js (line 149). -/
def secureNotFoundBody : JVal :=
  .jobj [("error", .jstr "Not found")]

/-- Express mount matching for `app.use(base, ...)`: the mount runs
for the base path itself and for any path below it. -/
def mountMatches (u base : String) : Bool :=
  u == base || strStartsWith u (base ++ "/")

/-- The allowed-origin list of `configureCORS`
(middleware/security.js, lines 241-245):
`[app.gohighlevel.com, innovativebioscience.com, FRONTEND_URL].filter(Boolean)`. -/
def allowedOriginsList (frontendUrl : Option String) : List String :=
  (["https://app.gohighlevel.com", "https://innovativebioscience.com"] ++
    frontendUrl.toList).filter jsTruthyStr

/-- The origin callback of `configureCORS` (lines 248-253): requests
without an Origin header and requests from a listed origin pass; any
other origin is answered through the error handler. -/
def originAllowed (origin frontendUrl : Option String) : Bool :=
  match origin with
  | none => true
  | some o => (allowedOriginsList frontendUrl).contains o

/-- Body produced by `errorHandler` for the CORS rejection error
outside production mode. -/
def corsErrorBody : JVal :=
  .jobj [("error", .jstr "Not allowed by CORS")]

/-- Error marker of the rate-limit handler
(middleware/security.js, lines 116-124); its `retryAfter`, `limit`
and `remaining` fields depend on limiter state and are omitted. -/
def rateLimitBody : JVal :=
  .jobj [("error", .jstr "Too many requests")]

/-- The method+path pairs registered on server-secure.js: the three
app-level routes (lines 56, 79, 94) and the two `/api/v1` router
routes (lines 135, 140). -/
def secureRegisteredRoute (m : HMethod) (u : String) : Bool :=
  (u == "/health" && m == .get) ||
  (u == "/metrics" && m == .get) ||
  (u == "/webhook/contact.create" && m == .post) ||
  (u == "/api/v1/contacts" && m == .get) ||
  (u == "/api/v1/enrich" && m == .post)

/-- Embedding of the server-secure.js request pipeline in registration
order (lines 37-150): `configureCORS` rejects disallowed origins
through the error handler (500) and short-circuits OPTIONS requests
with the configured `optionsSuccessStatus` 200 and an empty body; the
`/api`-mounted rate limiter answers 429 when the client is over the
limit; then the three app-level routes; then the `/api/v1` router,
whose `apiRouter.use(authenticateAPIKey)` (line 132) runs before its
two routes and answers 401 without a valid key; everything left
reaches the catch-all 404 handler. Helmet, request logging and input
sanitization add no response path, and the body parsers respond only
to requests with malformed JSON bodies, which carry no body in this
model. `rateLimited` abstracts the limiter's per-client counter
state. -/
def serverSecurePipeline (m : HMethod) (u : String)
    (origin frontendUrl : Option String) (rateLimited : Bool)
    (apiKey internalKey externalKey : Option String) : DispatchResult :=
  if !originAllowed origin frontendUrl then .response 500 corsErrorBody
  else if m == .options then .response 200 .jnull
  else if mountMatches u "/api" && rateLimited then .response 429 rateLimitBody
  else if u == "/health" && m == .get then .handled "health"
  else if u == "/metrics" && m == .get then .handled "metrics"
  else if u == "/webhook/contact.create" && m == .post then .handled "webhookContactCreate"
  else if mountMatches u "/api/v1" then
    match authenticateAPIKey apiKey internalKey externalKey with
    | .reject st msg => .response st (.jobj [("error", .jstr msg)])
    | .allow =>
        if u == "/api/v1/contacts" && m == .get then .handled "apiContacts"
        else if u == "/api/v1/enrich" && m == .post then .handled "apiEnrich"
        else .response 404 secureNotFoundBody
  else .response 404 secureNotFoundBody

/-- Disjunction of the native guards: true exactly when some
registered route matches. -/
def nativeRouteMatches (m : HMethod) (u : String) : Bool :=
  (m == .options) || (u == "/health") ||
  (strStartsWith u "/api/test/" && m == .get) ||
  (strStartsWith u "/api/ghl/contacts" && m == .get) ||
  (u == "/api/ghl/contacts" && m == .post) ||
  (strStartsWith u "/api/ghl/opportunities" && m == .get) ||
  (strStartsWith u "/api/ghl/tasks" && m == .get) ||
  (u == "/api/ghl/stats" && m == .get) ||
  (u == "/api/inventory/check" && m == .post) ||
  (u == "/api/inventory/low-stock" && m == .get)

/-! ## Claim theorems -/

/-- C1, counterexample: with the placeholder secret
`'your-webhook-secret'` configured, `verifyWebhookSignature` returns
true for a signature (here the empty byte string) that does not equal
the hex HMAC-SHA256 digest of the body, so the claimed equivalence
between verification success and signature equality fails. -/
theorem C1_iff_counterexample :
    ¬ (verifyWebhookSignature placeholderSecret [] [] = true ↔
       hmacHex placeholderSecret [] = []) := by
  intro h
  have h2 := h.mp (by decide)
  have h3 := congrArg List.length h2
  rw [hmacHex_length] at h3
  simp at h3

/-- C1, amended: for every secret other than the empty byte string and
the placeholder `'your-webhook-secret'`, `verifyWebhookSignature`
returns true exactly when the signature equals the hex-encoded
HMAC-SHA256 of the body under the secret; consequently changing the
signature of an accepted request makes verification return false, and
changing the body does so whenever the recomputed digest differs. -/
theorem C1_verify_iff_amended (secret payload signature : List Nat)
    (hne : secret ≠ []) (hpl : secret ≠ placeholderSecret) :
    (verifyWebhookSignature secret payload signature = true ↔
       hmacHex secret payload = signature)
    ∧ (∀ sig2 : List Nat, verifyWebhookSignature secret payload signature = true →
        sig2 ≠ signature → verifyWebhookSignature secret payload sig2 = false)
    ∧ (∀ payload2 : List Nat, verifyWebhookSignature secret payload signature = true →
        hmacHex secret payload2 ≠ hmacHex secret payload →
        verifyWebhookSignature secret payload2 signature = false) := by
  have hguard : (secret == [] || secret == placeholderSecret) = false := by
    simp [hne, hpl]
  have hv : ∀ pl sg : List Nat,
      verifyWebhookSignature secret pl sg = (hmacHex secret pl == sg) := by
    intro pl sg
    unfold verifyWebhookSignature
    rw [hguard]
    simp
  refine ⟨?_, ?_, ?_⟩
  · rw [hv]
    exact beq_iff_eq
  · intro sig2 h1 h2
    have e1 : hmacHex secret payload = signature := by simpa [hv] using h1
    rw [hv, e1]
    simp
    exact fun hc => h2 hc.symm
  · intro payload2 h1 h2
    have e1 : hmacHex secret payload = signature := by simpa [hv] using h1
    rw [hv]
    simp
    rw [← e1]
    exact h2

/-- C1, witness: a concrete non-placeholder secret accepts exactly its
own digest. -/
theorem C1_verify_iff_witness :
    verifyWebhookSignature [107] [] (hmacHex [107] []) = true :=
  (C1_verify_iff_amended [107] [] (hmacHex [107] []) (by decide) (by decide)).1.mpr rfl

/-- C5: a parsed `POST /api/ghl/contacts` body with neither an email
nor a phone field is answered with HTTP 400 and an explanatory error,
and no upstream GoHighLevel request is attempted, whatever the
upstream would have answered. -/
theorem C5_missing_contact_fields (up : UpResult) :
    postContactsHandler (some (none, none)) up =
      ⟨400, .jobj [("success", .jbool false),
                   ("error", .jstr "Either email or phone is required")], false⟩ :=
  rfl

/-- C7: the low-stock endpoint returns exactly the inventory items
with `needs_reorder` set or `stock_status` equal to LOW — concretely
the items FBS-002 and PLS-001 — and no others. -/
theorem C7_low_stock_exact :
    lowStockItems.map (fun i => i.sku) = ["FBS-002", "PLS-001"]
    ∧ (∀ i : InventoryItem,
        i ∈ lowStockItems ↔
          (i ∈ invValues ∧ (i.needs_reorder = true ∨ i.stock_status = "LOW"))) := by
  constructor
  · decide
  · intro i
    simp [lowStockItems, List.mem_filter]

/-- C7, witness: the FBS-002 record is reported as low stock. -/
theorem C7_low_stock_witness :
    (⟨"FBS-002", "Fetal Bovine Serum - USDA Approved", "FBS", 25,
      "bottles (500ml)", 30, "Cold Storage A2", "LOW", true⟩ : InventoryItem) ∈
      lowStockItems :=
  (C7_low_stock_exact.2 _).mpr ⟨by decide, Or.inl rfl⟩

/-- C9: for a `GET /api/ghl/contacts` request whose limit parameter
parses to `n`, the limit forwarded upstream is `min n 100` while the
response body echoes the uncapped `n`; for `n > 100` the two differ. -/
theorem C9_limit_cap (limitParam : Option String) (n : Nat)
    (hp : jsParseInt (jsOrStr limitParam "20") = some n) :
    (getContactsLimits limitParam).1 = some (min n 100)
    ∧ (getContactsLimits limitParam).2 = some n
    ∧ (100 < n →
        (getContactsLimits limitParam).1 ≠ (getContactsLimits limitParam).2) := by
  refine ⟨by simp [getContactsLimits, hp], by simp [getContactsLimits, hp], ?_⟩
  intro hgt
  simp [getContactsLimits, hp]
  omega

/-- C9, witness: a request with limit 150 forwards 100 upstream but
echoes 150. -/
theorem C9_limit_cap_witness :
    (getContactsLimits (some "150")).1 = some 100
    ∧ (getContactsLimits (some "150")).2 = some 150 := by
  have h := C9_limit_cap (some "150") 150 rfl
  exact ⟨by simpa using h.1, h.2.1⟩

/-- Helper: with a configured secret and a present signature of a byte
length other than 64, the timing-safe comparison throws and the catch
branch of `verifyGHLWebhook` answers 500. -/
theorem ghlWebhook_badlen_500 (secret signature body : List Nat)
    (hs : secret ≠ []) (hsig : signature ≠ []) (hlen : signature.length ≠ 64) :
    verifyGHLWebhook (some secret) (some signature) body =
      .respond 500 "Webhook verification failed" := by
  have ht : jsTruthyBytes (some secret) = true := by
    simp [jsTruthyBytes, hs]
  have hts : jsTruthyBytes (some signature) = true := by
    simp [jsTruthyBytes, hsig]
  simp only [verifyGHLWebhook, ht, hts, Bool.not_true, Bool.false_eq_true,
    if_false, Option.getD_some]
  have : timingSafeEqual signature (hmacHex secret body) = .error "RangeError" := by
    simp [timingSafeEqual, hmacHex_length, hlen]
  rw [this]

/-- Helper: with a configured secret and a present 64-byte signature
different from the expected digest, `verifyGHLWebhook` answers 401. -/
theorem ghlWebhook_mismatch_401 (secret signature body : List Nat)
    (hs : secret ≠ []) (hlen : signature.length = 64)
    (hne : signature ≠ hmacHex secret body) :
    verifyGHLWebhook (some secret) (some signature) body =
      .respond 401 "Invalid webhook signature" := by
  have hsig : signature ≠ [] := by
    intro he
    rw [he] at hlen
    simp at hlen
  have ht : jsTruthyBytes (some secret) = true := by
    simp [jsTruthyBytes, hs]
  have hts : jsTruthyBytes (some signature) = true := by
    simp [jsTruthyBytes, hsig]
  simp only [verifyGHLWebhook, ht, hts, Bool.not_true, Bool.false_eq_true,
    if_false, Option.getD_some]
  have : timingSafeEqual signature (hmacHex secret body) = .ok false := by
    simp [timingSafeEqual, hmacHex_length, hlen, hne]
  rw [this]

/-- C10: in `verifyGHLWebhook`, a present signature whose byte length
differs from the 64 hex characters of the expected HMAC digest makes
`crypto.timingSafeEqual` throw, so the catch branch answers HTTP 500
(Webhook verification failed); a same-length mismatching signature is
instead rejected with 401 (Invalid webhook signature). -/
theorem C10_length_mismatch_500 (secret signature body : List Nat)
    (hs : secret ≠ []) :
    (signature ≠ [] → signature.length ≠ 64 →
      verifyGHLWebhook (some secret) (some signature) body =
        .respond 500 "Webhook verification failed")
    ∧ (signature.length = 64 → signature ≠ hmacHex secret body →
      verifyGHLWebhook (some secret) (some signature) body =
        .respond 401 "Invalid webhook signature") := by
  exact ⟨fun hsig hlen => ghlWebhook_badlen_500 secret signature body hs hsig hlen,
         fun hlen hne => ghlWebhook_mismatch_401 secret signature body hs hlen hne⟩

/-- C10, witness: a two-byte signature under a configured secret is
answered with 500, not 401. -/
theorem C10_length_mismatch_witness :
    verifyGHLWebhook (some [97]) (some [104, 105]) [] =
      .respond 500 "Webhook verification failed" :=
  (C10_length_mismatch_500 [97] [104, 105] [] (by decide)).1 (by decide) (by decide)

/-- C2, counterexample: the part_004 webhook route processes a request
that carries no signature header even though the configured secret is
neither empty nor the placeholder — a missing signature is a silent
pass there, not a rejection. -/
theorem C2_missing_signature_counterexample :
    ghlWebhookRouteDecision (strBytes "s3cret") none [] = .accept
    ∧ strBytes "s3cret" ≠ []
    ∧ strBytes "s3cret" ≠ placeholderSecret := by
  exact ⟨rfl, by decide, by decide⟩

/-- C2, amended: the middleware `verifyGHLWebhook` fails closed — a
missing or empty secret yields 500, a missing signature 401, and a
same-length mismatch 401 — and the part_004 route rejects a present
mismatching signature with 401; but that route skips verification
entirely and processes the request whenever the signature header is
absent, in addition to the placeholder-secret skip inside
`verifyWebhookSignature`. -/
theorem C2_fails_closed_amended (secret signature body : List Nat) :
    (∀ sigO : Option (List Nat),
      verifyGHLWebhook none sigO body =
        .respond 500 "Webhook verification not configured")
    ∧ (∀ sigO : Option (List Nat),
      verifyGHLWebhook (some []) sigO body =
        .respond 500 "Webhook verification not configured")
    ∧ (secret ≠ [] →
      verifyGHLWebhook (some secret) none body =
        .respond 401 "Missing webhook signature")
    ∧ (secret ≠ [] → signature.length = 64 → signature ≠ hmacHex secret body →
      verifyGHLWebhook (some secret) (some signature) body =
        .respond 401 "Invalid webhook signature")
    ∧ (signature ≠ [] → verifyWebhookSignature secret body signature = false →
      ghlWebhookRouteDecision secret (some signature) body = .reject401)
    ∧ ghlWebhookRouteDecision secret none body = .accept := by
  refine ⟨fun sigO => rfl, fun sigO => rfl, ?_, ?_, ?_, rfl⟩
  · intro hs
    simp [verifyGHLWebhook, jsTruthyBytes, hs]
  · intro hs hlen hne
    exact ghlWebhook_mismatch_401 secret signature body hs hlen hne
  · intro hsig hv
    simp [ghlWebhookRouteDecision, jsTruthyBytes, hsig, hv]

/-- C3, counterexample: the native server's 404 response to an
unmatched request is a structured body with only `error` and `path`
fields — it does not list the known endpoints, although a nonempty
endpoint list exists (it is served inside `GET /health`). -/
theorem C3_endpoint_list_counterexample :
    serverNativeHandle .get "/nope" = .response 404 (nativeNotFoundBody "/nope")
    ∧ lookupField (nativeNotFoundBody "/nope") "endpoints" = none
    ∧ nativeKnownEndpoints ≠ [] := by
  exact ⟨rfl, rfl, by decide⟩

/-- C3, amended: in the native variant every request whose method and
path match no registered route is answered with HTTP 404 and a
structured JSON error body carrying `error: Not found` and the request
path — the body does not enumerate the known endpoints, which are
returned by `GET /health`. In the secure variant an unmatched
method+path reaches the catch-all 404 (body `error: Not found`) only
when the middleware stack lets it through: a non-OPTIONS request with
an allowed or absent Origin that is not rate limited and, for paths
under `/api/v1`, presents a valid API key. Otherwise the middleware
answers first: OPTIONS requests are short-circuited by CORS with 200,
rate-limited `/api` requests get 429, and keyless unmatched `/api/v1`
paths get 401 (Missing API key), never the 404. Both dispatchers are
total, so no request escapes without a response. -/
theorem C3_unmatched_404_amended (m : HMethod) (u : String)
    (origin frontendUrl : Option String) (rateLimited : Bool)
    (apiKey internalKey externalKey : Option String) :
    (nativeRouteMatches m u = false →
      serverNativeHandle m u = .response 404 (nativeNotFoundBody u)
      ∧ lookupField (nativeNotFoundBody u) "endpoints" = none)
    ∧ (originAllowed origin frontendUrl = true →
       (m == HMethod.options) = false →
       (mountMatches u "/api" && rateLimited) = false →
       secureRegisteredRoute m u = false →
       (mountMatches u "/api/v1" = false ∨
         authenticateAPIKey apiKey internalKey externalKey = .allow) →
      serverSecurePipeline m u origin frontendUrl rateLimited
          apiKey internalKey externalKey =
        .response 404 secureNotFoundBody)
    ∧ (originAllowed origin frontendUrl = true →
       (m == HMethod.options) = false →
       (mountMatches u "/api" && rateLimited) = false →
       mountMatches u "/api/v1" = true →
       secureRegisteredRoute m u = false →
       apiKey = none →
      serverSecurePipeline m u origin frontendUrl rateLimited
          apiKey internalKey externalKey =
        .response 401 (.jobj [("error", .jstr "Missing API key")]))
    ∧ (originAllowed origin frontendUrl = true →
      serverSecurePipeline HMethod.options u origin frontendUrl rateLimited
          apiKey internalKey externalKey =
        .response 200 .jnull)
    ∧ (originAllowed origin frontendUrl = true →
       (m == HMethod.options) = false →
       mountMatches u "/api" = true → rateLimited = true →
      serverSecurePipeline m u origin frontendUrl rateLimited
          apiKey internalKey externalKey =
        .response 429 rateLimitBody) := by
  refine ⟨?_, ?_, ?_, ?_, ?_⟩
  · intro h
    simp only [nativeRouteMatches, Bool.or_eq_false_iff] at h
    obtain ⟨⟨⟨⟨⟨⟨⟨⟨⟨h1, h2⟩, h3⟩, h4⟩, h5⟩, h6⟩, h7⟩, h8⟩, h9⟩, h10⟩ := h
    refine ⟨?_, rfl⟩
    simp only [serverNativeHandle, h1, h2, h3, h4, h5, h6, h7, h8, h9, h10,
      Bool.false_eq_true, if_false]
  · intro ho hm hr hroute hv1
    simp only [secureRegisteredRoute, Bool.or_eq_false_iff] at hroute
    obtain ⟨⟨⟨⟨g1, g2⟩, g3⟩, g4⟩, g5⟩ := hroute
    rcases hv1 with hmv | hauth
    · simp only [serverSecurePipeline, ho, Bool.not_true, Bool.false_eq_true,
        if_false, hm, hr, g1, g2, g3, hmv]
    · simp only [serverSecurePipeline, ho, Bool.not_true, Bool.false_eq_true,
        if_false, hm, hr, g1, g2, g3, hauth, g4, g5]
      split
      · rfl
      · rfl
  · intro ho hm hr hmv hroute hkey
    subst hkey
    simp only [secureRegisteredRoute, Bool.or_eq_false_iff] at hroute
    obtain ⟨⟨⟨⟨g1, g2⟩, g3⟩, g4⟩, g5⟩ := hroute
    have hauth : authenticateAPIKey none internalKey externalKey =
        .reject 401 "Missing API key" := rfl
    simp only [serverSecurePipeline, ho, Bool.not_true, Bool.false_eq_true,
      if_false, hm, hr, g1, g2, g3, hmv, if_true, hauth]
  · intro ho
    simp only [serverSecurePipeline, ho, Bool.not_true, Bool.false_eq_true,
      if_false]
    rfl
  · intro ho hm hmr hrl
    simp only [serverSecurePipeline, ho, Bool.not_true, Bool.false_eq_true,
      if_false, hm, hmr, hrl, Bool.and_self, if_true]

/-- C3, witness: a POST to an unregistered path is answered 404 by
both variants, while a keyless GET to an unregistered path under the
authenticated router is answered 401, and an OPTIONS request is
short-circuited with 200. -/
theorem C3_unmatched_404_witness :
    serverNativeHandle .post "/missing" = .response 404 (nativeNotFoundBody "/missing")
    ∧ serverSecurePipeline .post "/missing" none none false none none none =
        .response 404 secureNotFoundBody
    ∧ serverSecurePipeline .get "/api/v1/unknown" none none false none none none =
        .response 401 (.jobj [("error", .jstr "Missing API key")])
    ∧ serverSecurePipeline .options "/missing" none none false none none none =
        .response 200 .jnull := by
  have h1 := C3_unmatched_404_amended .post "/missing" none none false none none none
  have h2 := C3_unmatched_404_amended .get "/api/v1/unknown" none none false none none none
  exact ⟨(h1.1 (by decide)).1,
         h1.2.1 (by decide) (by decide) (by decide) (by decide) (Or.inl (by decide)),
         h2.2.2.1 (by decide) (by decide) (by decide) (by decide) (by decide) rfl,
         h1.2.2.2.1 (by decide)⟩

/-- C4: on the embedded `GET /metrics` route, a request presenting a
configured API key reaches the handler, whose call of
`circuitBreakerManager.getMetrics()` names a method the manager class
does not define, so the route answers 500 through the error handler
instead of returning metrics; a request without a key is rejected
with 401 (Missing API key). -/
theorem C4_metrics_route_500 (k : String) (internalKey externalKey : Option String)
    (hvalid : (([internalKey, externalKey].filterMap id).filter jsTruthyStr).contains k = true)
    (hk : k ≠ "") :
    metricsRoute (some k) internalKey externalKey =
      (500, .jobj [("error",
        .jstr "TypeError: circuitBreakerManager.getMetrics is not a function")])
    ∧ metricsRoute none internalKey externalKey =
      (401, .jobj [("error", .jstr "Missing API key")]) := by
  constructor
  · have hcall : callManagerMethod "getMetrics" =
        Except.error "TypeError: circuitBreakerManager.getMetrics is not a function" :=
      rfl
    have h1 : jsTruthyOpt (some k) = true := by
      simp [jsTruthyOpt, jsTruthyStr, hk]
    have hauth : authenticateAPIKey (some k) internalKey externalKey = .allow := by
      simp only [authenticateAPIKey, h1, Bool.not_true, Bool.false_eq_true,
        if_false, Option.getD_some, hvalid, if_true]
    simp only [metricsRoute, hauth, hcall]
  · rfl

/-- C4, witness: with `INTERNAL_API_KEY` set to `k1`, presenting `k1`
yields the 500 error response. -/
theorem C4_metrics_route_witness :
    metricsRoute (some "k1") (some "k1") none =
      (500, .jobj [("error",
        .jstr "TypeError: circuitBreakerManager.getMetrics is not a function")]) :=
  (C4_metrics_route_500 "k1" (some "k1") none (by decide) (by decide)).1

/-- C8, counterexample: on a response body that is not valid JSON,
`GHLClient.makeRequest` resolves with an object that carries the raw
text under `raw` next to an `error` marker and has neither a `data`
field nor the status code, so the claim that every upstream client
resolves with the raw text as the `data` field together with the
status fails for it. -/
theorem C8_ghl_client_counterexample :
    jsonParse "oops" = none
    ∧ ghlClientResolve "oops" =
        .jobj [("error", .jstr "Invalid response"), ("raw", .jstr "oops")]
    ∧ lookupField (ghlClientResolve "oops") "data" = none := by
  exact ⟨rfl, rfl, rfl⟩

/-- C8, amended: both upstream clients resolve rather than reject when
the response body fails to parse as JSON; `makeHttpsRequest` resolves
with the raw text as `data` together with the status code, while
`GHLClient.makeRequest` resolves with an `error` marker and the raw
text under `raw`, without the status code. -/
theorem C8_parse_failure_amended (status : Nat) (text : String)
    (hp : jsonParse text = none) (hne : text ≠ "") :
    makeHttpsRequestResolve status text = ⟨status, .jstr text⟩
    ∧ ghlClientResolve text =
        .jobj [("error", .jstr "Invalid response"), ("raw", .jstr text)] := by
  constructor
  · simp [makeHttpsRequestResolve, hne, hp]
  · simp [ghlClientResolve, hp]

/-- C8, witness: a plain-text 502 body resolves with the text as
`data` and the status preserved. -/
theorem C8_parse_failure_witness :
    makeHttpsRequestResolve 502 "oops" = ⟨502, .jstr "oops"⟩ :=
  (C8_parse_failure_amended 502 "oops" rfl (by decide)).1

/-- The stored SKU keys are already uppercase. -/
theorem asciiUpper_fbs001 : asciiUpper "FBS-001" = "FBS-001" := by decide

theorem asciiUpper_fbs002 : asciiUpper "FBS-002" = "FBS-002" := by decide

theorem asciiUpper_med001 : asciiUpper "MED-001" = "MED-001" := by decide

theorem asciiUpper_pls001 : asciiUpper "PLS-001" = "PLS-001" := by decide

/-- The stored categories are already uppercase. -/
theorem asciiUpper_fbs : asciiUpper "FBS" = "FBS" := by decide

theorem asciiUpper_media : asciiUpper "MEDIA" = "MEDIA" := by decide

theorem asciiUpper_plastics : asciiUpper "PLASTICS" = "PLASTICS" := by decide

/-- Property lookup on the inventory object agrees with filtering the
item list by SKU, because the object keys are exactly the item SKUs
and are pairwise distinct. -/
theorem invLookup_eq_sku_filter (u : String) :
    (match invLookup u with
     | some item => [item]
     | none => []) = invValues.filter (fun i => i.sku == u) := by
  by_cases h1 : u = "FBS-001"
  · subst h1; decide
  by_cases h2 : u = "FBS-002"
  · subst h2; decide
  by_cases h3 : u = "MED-001"
  · subst h3; decide
  by_cases h4 : u = "PLS-001"
  · subst h4; decide
  have e1 : (("FBS-001" : String) == u) = false := by
    rw [beq_eq_false_iff_ne]
    exact fun h => h1 h.symm
  have e2 : (("FBS-002" : String) == u) = false := by
    rw [beq_eq_false_iff_ne]
    exact fun h => h2 h.symm
  have e3 : (("MED-001" : String) == u) = false := by
    rw [beq_eq_false_iff_ne]
    exact fun h => h3 h.symm
  have e4 : (("PLS-001" : String) == u) = false := by
    rw [beq_eq_false_iff_ne]
    exact fun h => h4 h.symm
  simp [invLookup, invValues, inventoryPairs, List.find?, List.filter, e1, e2, e3, e4]

/-- Filtering the items against an uppercased probe via the stored SKU
equals the case-insensitive comparison of the claim, because every
stored SKU is fixed by uppercasing. -/
theorem sku_filter_case_insensitive (v : String) :
    invValues.filter (fun i => i.sku == asciiUpper v) =
      invValues.filter (fun i => asciiUpper i.sku == asciiUpper v) := by
  simp only [invValues, inventoryPairs, List.map, List.filter,
    asciiUpper_fbs001, asciiUpper_fbs002, asciiUpper_med001, asciiUpper_pls001]

/-- The SKU filter never yields more than one item, since the four
stored SKUs are pairwise distinct. -/
theorem sku_filter_singleton (v : String) :
    (invValues.filter (fun i => asciiUpper i.sku == asciiUpper v)).length ≤ 1 := by
  rw [← sku_filter_case_insensitive]
  by_cases h1 : asciiUpper v = "FBS-001"
  · rw [h1]; decide
  by_cases h2 : asciiUpper v = "FBS-002"
  · rw [h2]; decide
  by_cases h3 : asciiUpper v = "MED-001"
  · rw [h3]; decide
  by_cases h4 : asciiUpper v = "PLS-001"
  · rw [h4]; decide
  have e1 : (("FBS-001" : String) == asciiUpper v) = false := by
    rw [beq_eq_false_iff_ne]
    exact fun h => h1 h.symm
  have e2 : (("FBS-002" : String) == asciiUpper v) = false := by
    rw [beq_eq_false_iff_ne]
    exact fun h => h2 h.symm
  have e3 : (("MED-001" : String) == asciiUpper v) = false := by
    rw [beq_eq_false_iff_ne]
    exact fun h => h3 h.symm
  have e4 : (("PLS-001" : String) == asciiUpper v) = false := by
    rw [beq_eq_false_iff_ne]
    exact fun h => h4 h.symm
  simp [invValues, inventoryPairs, List.filter, e1, e2, e3, e4]

/-- The category filter of the handler equals the case-insensitive
comparison of the claim, because every stored category is fixed by
uppercasing. -/
theorem cat_filter_case_insensitive (w : String) :
    invValues.filter (fun i => i.category == asciiUpper w) =
      invValues.filter (fun i => asciiUpper i.category == asciiUpper w) := by
  simp only [invValues, inventoryPairs, List.map, List.filter,
    asciiUpper_fbs, asciiUpper_media, asciiUpper_plastics]

/-- C6, counterexample: a body whose `sku` field is the empty string
is treated as having no sku at all — the handler returns the full
inventory (four items), not the empty result the claim requires, since
no item has an empty SKU. -/
theorem C6_empty_sku_counterexample :
    inventoryCheck (some "") none = invValues
    ∧ invValues.filter (fun i => asciiUpper i.sku == asciiUpper "") = []
    ∧ invValues ≠ [] := by
  exact ⟨rfl, by decide, by decide⟩

/-- C6, amended: for a body with a non-empty `sku` string the handler
returns exactly the items whose SKU matches case-insensitively —
always at most one; for a body without a truthy sku but with a
non-empty `category` string it returns exactly the items whose
category matches case-insensitively; and for a body with neither
truthy field it returns all items. A present-but-empty `sku` or
`category` string is treated as absent. -/
theorem C6_inventory_check_amended (sku category : Option String) :
    (∀ v : String, sku = some v → v ≠ "" →
      inventoryCheck sku category =
        invValues.filter (fun i => asciiUpper i.sku == asciiUpper v)
      ∧ (invValues.filter (fun i => asciiUpper i.sku == asciiUpper v)).length ≤ 1)
    ∧ (jsTruthyOpt sku = false → ∀ w : String, category = some w → w ≠ "" →
      inventoryCheck sku category =
        invValues.filter (fun i => asciiUpper i.category == asciiUpper w))
    ∧ (jsTruthyOpt sku = false → jsTruthyOpt category = false →
      inventoryCheck sku category = invValues) := by
  refine ⟨?_, ?_, ?_⟩
  · rintro v rfl hv
    have ht : jsTruthyOpt (some v) = true := by
      simp [jsTruthyOpt, jsTruthyStr, hv]
    refine ⟨?_, sku_filter_singleton v⟩
    simp only [inventoryCheck, ht, if_true, Option.getD_some]
    exact (invLookup_eq_sku_filter (asciiUpper v)).trans (sku_filter_case_insensitive v)
  · rintro hs w rfl hw
    have ht : jsTruthyOpt (some w) = true := by
      simp [jsTruthyOpt, jsTruthyStr, hw]
    simp only [inventoryCheck, hs, Bool.false_eq_true, if_false, ht, if_true,
      Option.getD_some]
    exact cat_filter_case_insensitive w
  · intro hs hc
    simp only [inventoryCheck, hs, hc, Bool.false_eq_true, if_false]

/-- C6, witness: the lowercase probe fbs-001 returns exactly the
FBS-001 item. -/
theorem C6_inventory_check_witness :
    inventoryCheck (some "fbs-001") none =
      invValues.filter (fun i => asciiUpper i.sku == asciiUpper "fbs-001") :=
  (((C6_inventory_check_amended (some "fbs-001") none).1) "fbs-001" rfl (by decide)).1

/-- C2, witness: with the configured one-byte secret, a missing
signature is rejected 401 by the middleware, a mismatching 64-byte
signature is rejected 401, and the part_004 route accepts the
signature-less request. -/
theorem C2_fails_closed_witness :
    verifyGHLWebhook (some [97]) none [] = .respond 401 "Missing webhook signature"
    ∧ verifyGHLWebhook (some [97]) (some (List.replicate 64 48)) [] =
        .respond 401 "Invalid webhook signature"
    ∧ ghlWebhookRouteDecision [97] none [] = .accept := by
  have h := C2_fails_closed_amended [97] (List.replicate 64 48) []
  exact ⟨h.2.2.1 (by decide),
         h.2.2.2.1 (by decide) (by decide) (by decide),
         h.2.2.2.2.2⟩

/-- C5, witness: the 400 rejection at a concrete upstream result. -/
theorem C5_missing_contact_fields_witness :
    postContactsHandler (some (none, none)) (.success (.jobj [])) =
      ⟨400, .jobj [("success", .jbool false),
                   ("error", .jstr "Either email or phone is required")], false⟩ :=
  C5_missing_contact_fields (.success (.jobj []))
